import Mathlib

/-!
# Verification of the MeterUsage datetime-range query engine

Shallow embedding of the consumption-data query engine implemented in
`grpc_server/server.py` and `http_server/app.py`:

* CPython's `float(str)` conversion (success/failure and the parsed value),
  used on the `EnergyUsage` CSV field;
* CPython's `datetime.fromisoformat` (classic `isoformat()` grammar
  `YYYY-MM-DD[*HH[:MM[:SS[.fff[fff]]]][+HH:MM[:SS[.ffffff]]]]`, where `*`
  is any single separator character), used after `str.replace('Z', '+00:00')`;
* Python `datetime` comparison: naive/naive and aware/aware compare by
  instant; comparing naive with aware raises `TypeError`;
* the record store loader `_load_csv_data`, the range filter
  `_filter_records` and the RPC handler `GetConsumptionData` of the gRPC
  server, and the `/api/consumption` handler `get_consumption` of the HTTP
  gateway (including its `validate_datetime` check).

Exceptions are modelled with `Option`/`Except`; the float value is carried
as an exact rational (the engine never computes with it, only passes it
through, so IEEE rounding is irrelevant to every property proved here).
-/

/-! ## Python `float(str)` -/

/-- Result of a successful Python `float(...)` conversion.  The numeric
value is kept exactly as `mantissa * 10 ^ exp10` (all mantissa digits as
one integer, with the sign applied); special values are tagged.  The
engine only passes usage values through — it never computes or compares
them — so this exact decimal form stands in for the IEEE double. -/
inductive PyFloat where
  | finite (mantissa : ℤ) (exp10 : ℤ)
  | infinite (neg : Bool)
  | nan
deriving DecidableEq

/-- Whitespace stripped by `float(str)` from both ends of the argument. -/
def pyIsSpace (c : Char) : Bool :=
  c = ' ' || c = '\t' || c = '\n' || c = '\x0b' || c = '\x0c' || c = '\r'

/-- Strip leading and trailing whitespace, as `float(str)` does. -/
def pyStripWs (cs : List Char) : List Char :=
  ((cs.dropWhile pyIsSpace).reverse.dropWhile pyIsSpace).reverse

/-- PEP 515: every underscore in a numeric literal must sit between two
digits.  `prev` is the character immediately before the remaining list. -/
def underscoresOkAux : Option Char → List Char → Bool
  | _, [] => true
  | prev, c :: rest =>
    if c = '_' then
      match prev, rest with
      | some p, n :: _ => p.isDigit && n.isDigit && underscoresOkAux (some c) rest
      | _, _ => false
    else
      underscoresOkAux (some c) rest

def underscoresOk (cs : List Char) : Bool := underscoresOkAux none cs

def digitVal (c : Char) : ℕ := c.toNat - 48

def natOfDigits (cs : List Char) : ℕ :=
  cs.foldl (fun acc c => 10 * acc + digitVal c) 0

/-- Parse the optional exponent part `("e"|"E") [sign] digits`; `none`
input chars mean exponent `0`. -/
def parseFloatExp (cs : List Char) : Option ℤ :=
  match cs with
  | [] => some 0
  | e :: rest =>
    if e = 'e' || e = 'E' then
      match rest with
      | '+' :: ds => if ds ≠ [] && ds.all Char.isDigit then some (natOfDigits ds) else none
      | '-' :: ds => if ds ≠ [] && ds.all Char.isDigit then some (-(natOfDigits ds : ℤ)) else none
      | ds => if ds ≠ [] && ds.all Char.isDigit then some (natOfDigits ds) else none
    else none

/-- Parse an unsigned decimal float body `D* ["." D*] [exp]` with at least
one mantissa digit (underscores already removed); the value is returned
as (mantissa digits, decimal exponent). -/
def parseUnsignedFloat (cs : List Char) : Option (ℕ × ℤ) :=
  let intpart := cs.takeWhile Char.isDigit
  let rest := cs.dropWhile Char.isDigit
  match rest with
  | '.' :: rest2 =>
    let frac := rest2.takeWhile Char.isDigit
    let rest3 := rest2.dropWhile Char.isDigit
    if intpart = [] && frac = [] then none
    else
      match parseFloatExp rest3 with
      | none => none
      | some e => some (natOfDigits (intpart ++ frac), e - frac.length)
  | _ =>
    if intpart = [] then none
    else
      match parseFloatExp rest with
      | none => none
      | some e => some (natOfDigits intpart, e)

/-- Parse the body after the optional sign: `inf`, `infinity`, `nan`
(case-insensitive) or a decimal literal. -/
def pyFloatBody (neg : Bool) (cs : List Char) : Option PyFloat :=
  let lower := cs.map Char.toLower
  if lower = ['i', 'n', 'f'] || lower = ['i', 'n', 'f', 'i', 'n', 'i', 't', 'y'] then
    some (PyFloat.infinite neg)
  else if lower = ['n', 'a', 'n'] then
    some PyFloat.nan
  else
    match parseUnsignedFloat cs with
    | none => none
    | some me => some (PyFloat.finite (if neg then -(me.1 : ℤ) else (me.1 : ℤ)) me.2)

/-- Model of CPython `float(str)`: strip whitespace, validate underscores,
take an optional sign, then parse the body.  Returns `none` where Python
raises `ValueError`. -/
def pyFloat (s : String) : Option PyFloat :=
  let cs := pyStripWs s.toList
  if underscoresOk cs then
    match (cs.filter (fun c => c ≠ '_')) with
    | '+' :: body => pyFloatBody false body
    | '-' :: body => pyFloatBody true body
    | body => if body = [] then none else pyFloatBody false body
  else none

/-! ## Python `datetime` and `datetime.fromisoformat` -/

/-- A Python `datetime` value: calendar fields plus an optional fixed UTC
offset in microseconds (`none` = offset-naive). -/
structure PyDateTime where
  year : ℕ
  month : ℕ
  day : ℕ
  hour : ℕ
  minute : ℕ
  second : ℕ
  microsecond : ℕ
  utcoffset : Option ℤ
deriving DecidableEq

/-- Parse exactly two ASCII digits. -/
def twoDigits (a b : Char) : Option ℕ :=
  if a.isDigit && b.isDigit then some (10 * digitVal a + digitVal b) else none

/-- `HH[:MM[:SS[.fff[fff]]]]` (CPython `_parse_hh_mm_ss_ff`): hours,
minutes, seconds and microseconds, fraction exactly 3 or 6 digits. -/
def parseHMSF (cs : List Char) : Option (ℕ × ℕ × ℕ × ℕ) :=
  match cs with
  | a :: b :: rest =>
    match twoDigits a b with
    | none => none
    | some hh =>
      match rest with
      | [] => some (hh, 0, 0, 0)
      | ':' :: c :: d :: rest2 =>
        match twoDigits c d with
        | none => none
        | some mm =>
          match rest2 with
          | [] => some (hh, mm, 0, 0)
          | ':' :: e :: f :: rest3 =>
            match twoDigits e f with
            | none => none
            | some ss =>
              match rest3 with
              | [] => some (hh, mm, ss, 0)
              | '.' :: frac =>
                if frac.all Char.isDigit && (frac.length = 3 || frac.length = 6) then
                  some (hh, mm, ss, natOfDigits frac * (if frac.length = 3 then 1000 else 1))
                else none
              | _ => none
          | _ => none
      | _ => none
  | _ => none

/-- Split a time string at the first `+` or `-`, which starts the UTC
offset part (CPython scans for the sign character). -/
def splitAtSign : List Char → List Char × List Char
  | [] => ([], [])
  | c :: rest =>
    if c = '+' || c = '-' then ([], c :: rest)
    else
      let p := splitAtSign rest
      (c :: p.1, p.2)

/-- Parse the time-of-day portion `HH[:MM[:SS[.fff[fff]]]][+HH:MM[:SS[.ffffff]]]`;
the offset is returned in microseconds. -/
def parseIsoTime (cs : List Char) : Option (ℕ × ℕ × ℕ × ℕ × Option ℤ) :=
  let p := splitAtSign cs
  match parseHMSF p.1 with
  | none => none
  | some (h, mi, se, us) =>
    match p.2 with
    | [] => some (h, mi, se, us, none)
    | sign :: comps =>
      if comps.length = 5 || comps.length = 8 || comps.length = 15 then
        match parseHMSF comps with
        | none => none
        | some (th, tm, ts, tus) =>
          let total : ℤ := ((th * 3600 + tm * 60 + ts) * 1000000 + tus : ℕ)
          some (h, mi, se, us, some (if sign = '-' then -total else total))
      else none

/-- The date part `YYYY-MM-DD` occupies exactly the first ten characters. -/
def parseIsoDate (cs : List Char) : Option (ℕ × ℕ × ℕ × List Char) :=
  match cs with
  | y1 :: y2 :: y3 :: y4 :: '-' :: m1 :: m2 :: '-' :: d1 :: d2 :: rest =>
    if y1.isDigit && y2.isDigit && y3.isDigit && y4.isDigit then
      match twoDigits m1 m2, twoDigits d1 d2 with
      | some mo, some da => some (natOfDigits [y1, y2, y3, y4], mo, da, rest)
      | _, _ => none
    else none
  | _ => none

def isLeapYear (y : ℕ) : Bool := y % 4 = 0 && (y % 100 ≠ 0 || y % 400 = 0)

def daysInMonth (y m : ℕ) : ℕ :=
  if m = 2 then (if isLeapYear y then 29 else 28)
  else if m = 4 || m = 6 || m = 9 || m = 11 then 30
  else 31

/-- Range checks done by the `date` constructor. -/
def dateValid (y mo da : ℕ) : Bool :=
  1 ≤ y && y ≤ 9999 && 1 ≤ mo && mo ≤ 12 && 1 ≤ da && da ≤ daysInMonth y mo

/-- Range checks done by the `time` constructor. -/
def timeValid (h mi se us : ℕ) : Bool :=
  h ≤ 23 && mi ≤ 59 && se ≤ 59 && us ≤ 999999

/-- The `timezone` constructor requires the offset to be strictly between
-24h and +24h (no per-component bound). -/
def offsetValid : Option ℤ → Bool
  | none => true
  | some o => -86400000000 < o && o < 86400000000

/-- Model of `datetime.fromisoformat` on a character list: ten-character
date, then optionally one arbitrary separator character and a non-empty
time string. -/
def pyFromIsoChars (cs : List Char) : Option PyDateTime :=
  match parseIsoDate cs with
  | none => none
  | some (y, mo, da, rest) =>
    match rest with
    | [] =>
      if dateValid y mo da then some ⟨y, mo, da, 0, 0, 0, 0, none⟩ else none
    | _sep :: tcs =>
      match tcs with
      | [] => none
      | _ =>
        match parseIsoTime tcs with
        | none => none
        | some (h, mi, se, us, off) =>
          if dateValid y mo da && timeValid h mi se us && offsetValid off then
            some ⟨y, mo, da, h, mi, se, us, off⟩
          else none

/-- Model of `datetime.fromisoformat` on a string. -/
def pyFromIso (s : String) : Option PyDateTime := pyFromIsoChars s.toList

/-- `str.replace('Z', '+00:00')` on the character list: every occurrence
of `Z` (not only a trailing one) becomes `+00:00`. -/
def replaceZChars : List Char → List Char
  | [] => []
  | c :: rest =>
    (if c = 'Z' then ['+', '0', '0', ':', '0', '0'] else [c]) ++ replaceZChars rest

/-- `s.replace('Z', '+00:00')`. -/
def replaceZ (s : String) : String := String.mk (replaceZChars s.toList)

/-- The datetime rule the code applies everywhere:
`datetime.fromisoformat(s.replace('Z', '+00:00'))`, `none` on `ValueError`. -/
def py_datetime_rule (s : String) : Option PyDateTime := pyFromIso (replaceZ s)

/-! ## Python `datetime` comparison -/

/-- Days since 1970-01-01 of a proleptic-Gregorian civil date
(Hinnant's formula; all divisions are on non-negative operands). -/
def daysFromCivil (y m d : ℕ) : ℤ :=
  let yi : ℤ := (y : ℤ) - (if m ≤ 2 then 1 else 0)
  let era : ℤ := yi / 400
  let yoe : ℤ := yi - era * 400
  let mp : ℤ := ((m : ℤ) + 9) % 12
  let doy : ℤ := (153 * mp + 2) / 5 + (d : ℤ) - 1
  let doe : ℤ := yoe * 365 + yoe / 4 - yoe / 100 + doy
  era * 146097 + doe - 719468

/-- Microseconds since the epoch ignoring the UTC offset. -/
def naiveKey (dt : PyDateTime) : ℤ :=
  (daysFromCivil dt.year dt.month dt.day * 86400
    + ((dt.hour * 3600 + dt.minute * 60 + dt.second : ℕ) : ℤ)) * 1000000
    + (dt.microsecond : ℤ)

/-- Python `datetime` order comparison: naive/naive compares field-wise
(equivalently, by `naiveKey`), aware/aware compares the UTC instants, and
mixing naive with aware raises `TypeError` (`none` here). -/
def pyCompare (a b : PyDateTime) : Option Ordering :=
  match a.utcoffset, b.utcoffset with
  | none, none => some (compare (naiveKey a) (naiveKey b))
  | some x, some y => some (compare (naiveKey a - x) (naiveKey b - y))
  | _, _ => none

/-- `a >= b` in the sense the spec uses for range bounds: comparison is
defined and does not give `lt`.  (`false` also covers the incomparable
naive-vs-aware case, which the filter theorems handle separately.) -/
def dtGe (a b : PyDateTime) : Bool :=
  match pyCompare a b with
  | some Ordering.lt => false
  | some _ => true
  | none => false

/-- `a <= b`, analogously. -/
def dtLe (a b : PyDateTime) : Bool :=
  match pyCompare a b with
  | some Ordering.gt => false
  | some _ => true
  | none => false

/-- Timezone-awareness of a parsed datetime. -/
def dtAware (d : PyDateTime) : Bool := d.utcoffset.isSome

/-! ## Record store (`ConsumptionRecord`, `_load_csv_data`) -/

/-- `ConsumptionRecord.__init__`: keeps the raw string, the converted
usage value, and the parse result of
`datetime.fromisoformat(datetime_str.replace('Z', '+00:00'))`
(`None` when that raises `ValueError`). -/
structure ConsumptionRecord where
  datetime_str : String
  energy_usage : PyFloat
  datetime_obj : Option PyDateTime
deriving DecidableEq

/-- Construct a record exactly as `ConsumptionRecord.__init__` does from a
raw datetime string and an already-converted usage value. -/
def mkConsumptionRecord (ds : String) (eu : PyFloat) : ConsumptionRecord :=
  ⟨ds, eu, py_datetime_rule ds⟩

/-- One CSV row as produced by `csv.DictReader`: the two named fields the
loader reads. -/
structure CsvRow where
  DateTime : String
  EnergyUsage : String
deriving DecidableEq

/-- The row loop of `_load_csv_data`: `float(row['EnergyUsage'])` raising
`ValueError` skips the row (loading continues); otherwise the constructed
record is appended.  A datetime parse failure is caught inside
`ConsumptionRecord.__init__` and only nulls `datetime_obj`. -/
def load_csv_rows : List CsvRow → List ConsumptionRecord
  | [] => []
  | row :: rest =>
    match pyFloat row.EnergyUsage with
    | none => load_csv_rows rest
    | some v => mkConsumptionRecord row.DateTime v :: load_csv_rows rest

/-- `_load_csv_data` including the surrounding `try`/`except`/`raise`: a
failure to open the source (modelled as an `Except.error` source) is
logged and re-raised unchanged. -/
def load_csv_data (source : Except String (List CsvRow)) :
    Except String (List ConsumptionRecord) :=
  match source with
  | .error e => .error e
  | .ok rows => .ok (load_csv_rows rows)

/-- The servicer holds the record list built at startup. -/
structure ConsumptionServicer where
  records : List ConsumptionRecord
deriving DecidableEq

/-- `ConsumptionServicer.__init__`: runs `_load_csv_data` once; a load
fault propagates and no servicer is constructed. -/
def consumptionServicerInit (source : Except String (List CsvRow)) :
    Except String ConsumptionServicer :=
  match load_csv_data source with
  | .error e => .error e
  | .ok recs => .ok ⟨recs⟩

/-! ## gRPC server (`_parse_datetime`, `_filter_records`, `GetConsumptionData`) -/

/-- The protobuf `ConsumptionRequest`: two proto3 string fields
(absent means the default `""`). -/
structure ConsumptionRequest where
  start_datetime : String
  end_datetime : String
deriving DecidableEq

/-- The protobuf `ConsumptionRecord` message of the response.  Proto3
scalar fields left unset read back as `0.0`. -/
structure GrpcConsumptionRecord where
  datetime : String
  energy_usage : PyFloat
  temperature : PyFloat
deriving DecidableEq

/-- The response record as `GetConsumptionData` builds it: only
`datetime` and `energy_usage` are set, so `temperature` keeps the proto3
default `0.0`. -/
def mkGrpcRecord (r : ConsumptionRecord) : GrpcConsumptionRecord :=
  ⟨r.datetime_str, r.energy_usage, PyFloat.finite 0 0⟩

/-- Outcome of one `GetConsumptionData` call: a normal response, or the
status set on the context (`INVALID_ARGUMENT` from the range validation,
`INTERNAL` from the catch-all handler). -/
inductive GrpcOutcome where
  | ok (records : List GrpcConsumptionRecord)
  | invalidArgument (details : String)
  | internal (details : String)
deriving DecidableEq

def GrpcOutcome.isInternal : GrpcOutcome → Bool
  | .internal _ => true
  | _ => false

def GrpcOutcome.isInvalidArgument : GrpcOutcome → Bool
  | .invalidArgument _ => true
  | _ => false

/-- Message of the `TypeError` CPython raises when `<` or `>` mixes an
offset-naive and an offset-aware datetime. -/
def cmpTypeErrorMsg : String := "can't compare offset-naive and offset-aware datetimes"

/-- `_parse_datetime`: empty string means "no bound"; otherwise the
datetime rule, with a parse failure logged and turned into `None`. -/
def parse_datetime (s : String) : Option PyDateTime :=
  if s = "" then none else py_datetime_rule s

/-- The `end_datetime` guard of the `_filter_records` loop body:
`if end_datetime and record.datetime_obj > end_datetime: continue`. -/
def record_end_check (d : PyDateTime) (ed : Option PyDateTime) : Except Unit Bool :=
  match ed with
  | none => .ok true
  | some e =>
    match pyCompare d e with
    | none => .error ()
    | some Ordering.gt => .ok false
    | some _ => .ok true

/-- One iteration of the `_filter_records` loop body for record `r`:
`ok true` = append, `ok false` = `continue`, `error` = `TypeError` from a
naive/aware comparison, which aborts the whole call. -/
def record_pass (r : ConsumptionRecord) (sd ed : Option PyDateTime) : Except Unit Bool :=
  match r.datetime_obj with
  | none => .ok false
  | some d =>
    match sd with
    | none => record_end_check d ed
    | some s =>
      match pyCompare d s with
      | none => .error ()
      | some Ordering.lt => .ok false
      | some _ => record_end_check d ed

/-- `_filter_records`: linear scan in store order; the first comparison
fault aborts the call (the partial result is discarded). -/
def filter_records : List ConsumptionRecord → Option PyDateTime → Option PyDateTime →
    Except Unit (List ConsumptionRecord)
  | [], _, _ => .ok []
  | r :: rs, sd, ed =>
    match record_pass r sd ed with
    | .error e => .error e
    | .ok b =>
      match filter_records rs sd ed with
      | .error e => .error e
      | .ok rest => .ok (if b then r :: rest else rest)

/-- Run the filter and build the response; a `TypeError` escaping the
filter is caught by the handler's catch-all and reported as `INTERNAL`. -/
def filter_respond (records : List ConsumptionRecord) (sd ed : Option PyDateTime) :
    GrpcOutcome :=
  match filter_records records sd ed with
  | .error _ => .internal ("Internal server error: " ++ cmpTypeErrorMsg)
  | .ok out => .ok (out.map mkGrpcRecord)

/-- `GetConsumptionData`: parse both bounds, validate the range when both
parsed (a mixed naive/aware `>` raises and lands in the catch-all), then
filter and answer. -/
def GetConsumptionData (records : List ConsumptionRecord) (request : ConsumptionRequest) :
    GrpcOutcome :=
  let sd := parse_datetime request.start_datetime
  let ed := parse_datetime request.end_datetime
  match sd, ed with
  | some s, some e =>
    match pyCompare s e with
    | none => .internal ("Internal server error: " ++ cmpTypeErrorMsg)
    | some Ordering.gt => .invalidArgument "start_datetime must be before end_datetime"
    | some _ => filter_respond records sd ed
  | _, _ => filter_respond records sd ed

/-! ## HTTP gateway (`validate_datetime`, `get_consumption`) -/

/-- `validate_datetime` of the HTTP server: same datetime rule, boolean
result. -/
def validate_datetime (s : String) : Bool := (py_datetime_rule s).isSome

/-- The pydantic response record of the HTTP API; `temperature` is a
required field copied from the gRPC record. -/
structure HttpConsumptionRecord where
  datetime : String
  energy_usage : PyFloat
  temperature : PyFloat
deriving DecidableEq

/-- The pydantic `ConsumptionResponse`. -/
structure HttpConsumptionResponse where
  records : List HttpConsumptionRecord
  total_count : ℕ
deriving DecidableEq

/-- Outcome of one `/api/consumption` request: a JSON response, an
`HTTPException(status_code, detail)`, or an exception type the handler
never catches escaping to the framework (the mixed-awareness `TypeError`
slips past `except ValueError`). -/
inductive HttpOutcome where
  | ok (resp : HttpConsumptionResponse)
  | httpError (status_code : ℕ) (detail : String)
  | serverFault (msg : String)
deriving DecidableEq

/-- Python truthiness of an optional query-parameter string: `None` and
`""` are falsy. -/
def optTruthy : Option String → Bool
  | none => false
  | some s => s ≠ ""

/-- `GRPCClient.get_consumption_data`: send `start or ''` / `end or ''`,
copy each response record field-for-field; a non-OK gRPC status raises
`RpcError`, converted to `HTTPException(500, "gRPC service error: ...")`. -/
def get_consumption_data (records : List ConsumptionRecord)
    (start_datetime end_datetime : Option String) :
    Except String (List HttpConsumptionRecord) :=
  match GetConsumptionData records ⟨start_datetime.getD "", end_datetime.getD ""⟩ with
  | .ok grecs => .ok (grecs.map fun g => ⟨g.datetime, g.energy_usage, g.temperature⟩)
  | .invalidArgument d => .error ("gRPC service error: " ++ d)
  | .internal d => .error ("gRPC service error: " ++ d)

/-- The tail of `get_consumption` after the validations: fetch from the
gRPC service and wrap the records; an `HTTPException` raised by the
client propagates. -/
def get_consumption_fetch (records : List ConsumptionRecord)
    (start_datetime end_datetime : Option String) : HttpOutcome :=
  match get_consumption_data records start_datetime end_datetime with
  | .error d => .httpError 500 d
  | .ok recs => .ok ⟨recs, recs.length⟩

/-- `/api/consumption` (`get_consumption`): format-validate each present
non-empty bound, then the start/end ordering check (whose
`except ValueError: pass` does not catch the mixed-awareness
`TypeError`, so that fault escapes the handler), then fetch. -/
def get_consumption (records : List ConsumptionRecord)
    (start_datetime end_datetime : Option String) : HttpOutcome :=
  if optTruthy start_datetime && !validate_datetime (start_datetime.getD "") then
    .httpError 400 "Invalid start_datetime format. Use ISO 8601 format."
  else if optTruthy end_datetime && !validate_datetime (end_datetime.getD "") then
    .httpError 400 "Invalid end_datetime format. Use ISO 8601 format."
  else if optTruthy start_datetime && optTruthy end_datetime then
    match py_datetime_rule (start_datetime.getD ""), py_datetime_rule (end_datetime.getD "") with
    | some sdt, some edt =>
      match pyCompare sdt edt with
      | none => .serverFault cmpTypeErrorMsg
      | some Ordering.gt => .httpError 400 "start_datetime must be before end_datetime"
      | some _ => get_consumption_fetch records start_datetime end_datetime
    | _, _ => get_consumption_fetch records start_datetime end_datetime
  else
    get_consumption_fetch records start_datetime end_datetime

/-! ## Spec-side definitions for the datetime rule (refinement target) -/

/-- Whether the string ends with a literal `Z`. -/
def endsWithZ (s : String) : Bool :=
  match s.toList.getLast? with
  | some c => c = 'Z'
  | none => false

/-- Modelled from the spec: the datetime parsing rule of section 4.1 —
"if the string ends with literal `Z`, treat it as UTC offset `+00:00`
before parsing", every other string is handed to the ISO-8601 parser
as-is.  The underlying parser is the same `fromisoformat` model, so the
comparison with `py_datetime_rule` isolates exactly the
replace-every-`Z` versus replace-trailing-`Z` difference. -/
def spec_datetime_rule (s : String) : Option PyDateTime :=
  if endsWithZ s then pyFromIsoChars (s.toList.dropLast ++ ['+', '0', '0', ':', '0', '0'])
  else pyFromIso s

/-- Whether no `Z` occurs before the last character (the only `Z`, if
any, is trailing). -/
def zOnlyTrailing (s : String) : Bool := !(s.toList.dropLast.contains 'Z')

/-! ## Helper lemmas -/

/-- The end-bound guard accepts exactly when the end bound is absent or
the comparison is defined and yields "not greater". -/
theorem record_end_check_true_iff (d : PyDateTime) (ed : Option PyDateTime) :
    record_end_check d ed = .ok true ↔ ∀ e, ed = some e → dtLe d e = true := by
  cases ed with
  | none => simp [record_end_check]
  | some e =>
    cases hc : pyCompare d e with
    | none => simp [record_end_check, dtLe, hc]
    | some o => cases o <;> simp [record_end_check, dtLe, hc]

/-- A record is appended exactly when its parsed timestamp is present and
each present bound admits it (both bounds inclusive). -/
theorem record_pass_true_iff (r : ConsumptionRecord) (sd ed : Option PyDateTime) :
    record_pass r sd ed = .ok true ↔
      ∃ d, r.datetime_obj = some d
        ∧ (∀ s, sd = some s → dtGe d s = true)
        ∧ (∀ e, ed = some e → dtLe d e = true) := by
  cases hdt : r.datetime_obj with
  | none => simp [record_pass, hdt]
  | some d =>
    cases sd with
    | none => simp [record_pass, hdt, record_end_check_true_iff]
    | some s =>
      cases hc : pyCompare d s with
      | none => simp [record_pass, hdt, hc, dtGe]
      | some o =>
        cases o <;>
          simp [record_pass, hdt, hc, dtGe, record_end_check_true_iff]

/-- Membership characterization of a completed filter run. -/
theorem filter_records_mem_iff {records : List ConsumptionRecord}
    {sd ed : Option PyDateTime} {out : List ConsumptionRecord}
    (h : filter_records records sd ed = .ok out) (x : ConsumptionRecord) :
    x ∈ out ↔ x ∈ records ∧ record_pass x sd ed = .ok true := by
  induction records generalizing out with
  | nil =>
    simp only [filter_records, Except.ok.injEq] at h
    subst h
    simp
  | cons r rs ih =>
    cases hp : record_pass r sd ed with
    | error e => simp [filter_records, hp] at h
    | ok b =>
      cases hf : filter_records rs sd ed with
      | error e => simp [filter_records, hp, hf] at h
      | ok rest =>
        simp only [filter_records, hp, hf, Except.ok.injEq] at h
        subst h
        cases b with
        | true =>
          show x ∈ r :: rest ↔ x ∈ r :: rs ∧ record_pass x sd ed = .ok true
          simp only [List.mem_cons]
          constructor
          · rintro (rfl | hx)
            · exact ⟨Or.inl rfl, hp⟩
            · obtain ⟨h1, h2⟩ := (ih hf).mp hx
              exact ⟨Or.inr h1, h2⟩
          · rintro ⟨rfl | hx, hpass⟩
            · exact Or.inl rfl
            · exact Or.inr ((ih hf).mpr ⟨hx, hpass⟩)
        | false =>
          show x ∈ rest ↔ x ∈ r :: rs ∧ record_pass x sd ed = .ok true
          simp only [List.mem_cons]
          constructor
          · intro hx
            obtain ⟨h1, h2⟩ := (ih hf).mp hx
            exact ⟨Or.inr h1, h2⟩
          · rintro ⟨rfl | hx, hpass⟩
            · rw [hp] at hpass
              cases hpass
            · exact (ih hf).mpr ⟨hx, hpass⟩

/-- A completed filter run returns a subsequence of the store. -/
theorem filter_records_sublist {records : List ConsumptionRecord}
    {sd ed : Option PyDateTime} {out : List ConsumptionRecord}
    (h : filter_records records sd ed = .ok out) : out.Sublist records := by
  induction records generalizing out with
  | nil =>
    simp only [filter_records, Except.ok.injEq] at h
    subst h
    exact List.Sublist.refl []
  | cons r rs ih =>
    cases hp : record_pass r sd ed with
    | error e => simp [filter_records, hp] at h
    | ok b =>
      cases hf : filter_records rs sd ed with
      | error e => simp [filter_records, hp, hf] at h
      | ok rest =>
        simp only [filter_records, hp, hf, Except.ok.injEq] at h
        subst h
        cases b with
        | true => exact List.Sublist.cons₂ r (ih hf)
        | false => exact List.Sublist.cons r (ih hf)

/-- Loading projects the kept rows, in order: the store's
(raw timestamp, usage) pairs form a subsequence of the source rows'
(DateTime, converted usage) pairs. -/
theorem load_csv_rows_sublist (rows : List CsvRow) :
    ((load_csv_rows rows).map (fun r => (r.datetime_str, some r.energy_usage))).Sublist
      (rows.map (fun row => (row.DateTime, pyFloat row.EnergyUsage))) := by
  induction rows with
  | nil => exact List.Sublist.refl []
  | cons row rest ih =>
    cases hv : pyFloat row.EnergyUsage with
    | none =>
      simp only [load_csv_rows, hv, List.map_cons]
      exact List.Sublist.cons _ ih
    | some v =>
      simp only [load_csv_rows, hv, List.map_cons, mkConsumptionRecord]
      exact List.Sublist.cons₂ _ ih

/-- Every stored record comes from some source row, with the raw datetime
string kept verbatim. -/
theorem load_csv_rows_mem {rows : List CsvRow} {r : ConsumptionRecord}
    (h : r ∈ load_csv_rows rows) :
    ∃ row ∈ rows, ∃ v, pyFloat row.EnergyUsage = some v
      ∧ r = mkConsumptionRecord row.DateTime v := by
  induction rows with
  | nil => cases h
  | cons row rest ih =>
    cases hv : pyFloat row.EnergyUsage with
    | none =>
      rw [load_csv_rows, hv] at h
      obtain ⟨row', hrow', hv'⟩ := ih h
      exact ⟨row', List.mem_cons_of_mem _ hrow', hv'⟩
    | some v =>
      rw [load_csv_rows, hv] at h
      cases h with
      | head => exact ⟨row, List.mem_cons_self _ _, v, hv, rfl⟩
      | tail _ h =>
        obtain ⟨row', hrow', hv'⟩ := ih h
        exact ⟨row', List.mem_cons_of_mem _ hrow', hv'⟩

/-- An `ok` answer of `filter_respond` exposes the completed filter run. -/
theorem filter_respond_ok {records : List ConsumptionRecord}
    {sd ed : Option PyDateTime} {gs : List GrpcConsumptionRecord}
    (h : filter_respond records sd ed = .ok gs) :
    ∃ out, filter_records records sd ed = .ok out ∧ gs = out.map mkGrpcRecord := by
  unfold filter_respond at h
  cases hf : filter_records records sd ed with
  | error e => rw [hf] at h; cases h
  | ok out =>
    rw [hf] at h
    cases h
    exact ⟨out, rfl, rfl⟩

/-- An `ok` answer of `GetConsumptionData` exposes the completed filter
run on the parsed bounds. -/
theorem GetConsumptionData_ok {records : List ConsumptionRecord}
    {request : ConsumptionRequest} {gs : List GrpcConsumptionRecord}
    (h : GetConsumptionData records request = .ok gs) :
    ∃ out, filter_records records (parse_datetime request.start_datetime)
        (parse_datetime request.end_datetime) = .ok out
      ∧ gs = out.map mkGrpcRecord := by
  cases hsd : parse_datetime request.start_datetime with
  | none =>
    simp only [GetConsumptionData, hsd] at h
    exact filter_respond_ok h
  | some s =>
    cases hed : parse_datetime request.end_datetime with
    | none =>
      simp only [GetConsumptionData, hsd, hed] at h
      exact filter_respond_ok h
    | some e =>
      simp only [GetConsumptionData, hsd, hed] at h
      cases hc : pyCompare s e with
      | none => rw [hc] at h; cases h
      | some o =>
        rw [hc] at h
        cases o with
        | lt => exact filter_respond_ok h
        | eq => exact filter_respond_ok h
        | gt => cases h

/-- An `ok` answer of the HTTP fetch tail exposes the gRPC response. -/
theorem get_consumption_fetch_ok {records : List ConsumptionRecord}
    {s e : Option String} {resp : HttpConsumptionResponse}
    (h : get_consumption_fetch records s e = .ok resp) :
    ∃ gs, GetConsumptionData records ⟨s.getD "", e.getD ""⟩ = .ok gs
      ∧ resp.records = gs.map (fun g => ⟨g.datetime, g.energy_usage, g.temperature⟩) := by
  unfold get_consumption_fetch get_consumption_data at h
  cases hg : GetConsumptionData records ⟨s.getD "", e.getD ""⟩ with
  | ok gs =>
    rw [hg] at h
    cases h
    exact ⟨gs, rfl, rfl⟩
  | invalidArgument d => rw [hg] at h; cases h
  | internal d => rw [hg] at h; cases h

/-- An `ok` answer of the HTTP endpoint exposes the gRPC response it
re-shaped. -/
theorem get_consumption_ok {records : List ConsumptionRecord}
    {s e : Option String} {resp : HttpConsumptionResponse}
    (h : get_consumption records s e = .ok resp) :
    ∃ gs, GetConsumptionData records ⟨s.getD "", e.getD ""⟩ = .ok gs
      ∧ resp.records = gs.map (fun g => ⟨g.datetime, g.energy_usage, g.temperature⟩) := by
  unfold get_consumption at h
  split at h
  · cases h
  · split at h
    · cases h
    · split at h
      · split at h
        · split at h
          · cases h
          · cases h
          · exact get_consumption_fetch_ok h
        · exact get_consumption_fetch_ok h
      · exact get_consumption_fetch_ok h

/-- Same-awareness datetimes always compare without fault. -/
theorem pyCompare_isSome_of_aware_eq {a b : PyDateTime}
    (h : dtAware a = dtAware b) : (pyCompare a b).isSome = true := by
  unfold dtAware at h
  unfold pyCompare
  cases ha : a.utcoffset with
  | none =>
    cases hb : b.utcoffset with
    | none => rfl
    | some y => rw [ha, hb] at h; cases h
  | some x =>
    cases hb : b.utcoffset with
    | none => rw [ha, hb] at h; cases h
    | some y => rfl

/-- Under uniform awareness of all parsed timestamps and bounds, the
filter never faults. -/
theorem filter_records_total {records : List ConsumptionRecord}
    {sd ed : Option PyDateTime} {b : Bool}
    (hrec : ∀ r ∈ records, r.datetime_obj.all (fun d => dtAware d == b) = true)
    (hsd : sd.all (fun d => dtAware d == b) = true)
    (hed : ed.all (fun d => dtAware d == b) = true) :
    ∃ out, filter_records records sd ed = .ok out := by
  induction records with
  | nil => exact ⟨[], rfl⟩
  | cons r rs ih =>
    obtain ⟨rest, hrest⟩ := ih (fun x hx => hrec x (List.mem_cons_of_mem _ hx))
    have hpass : ∃ bb, record_pass r sd ed = .ok bb := by
      cases hdt : r.datetime_obj with
      | none => exact ⟨false, by simp [record_pass, hdt]⟩
      | some d =>
        have hd : dtAware d = b := by
          have := hrec r (List.mem_cons_self _ _)
          rw [hdt] at this
          simpa using this
        have hend : ∃ bb, record_end_check d ed = .ok bb := by
          cases hede : ed with
          | none => exact ⟨true, rfl⟩
          | some e =>
            have he : dtAware e = b := by
              rw [hede] at hed
              simpa using hed
            have hcs : (pyCompare d e).isSome = true :=
              pyCompare_isSome_of_aware_eq (hd.trans he.symm)
            cases hc : pyCompare d e with
            | none => rw [hc] at hcs; cases hcs
            | some o =>
              cases o with
              | lt => exact ⟨true, by simp [record_end_check, hc]⟩
              | eq => exact ⟨true, by simp [record_end_check, hc]⟩
              | gt => exact ⟨false, by simp [record_end_check, hc]⟩
        obtain ⟨bb, hbb⟩ := hend
        cases hsde : sd with
        | none => exact ⟨bb, by simp [record_pass, hdt, hbb]⟩
        | some s =>
          have hs : dtAware s = b := by
            rw [hsde] at hsd
            simpa using hsd
          have hcs : (pyCompare d s).isSome = true :=
            pyCompare_isSome_of_aware_eq (hd.trans hs.symm)
          cases hc : pyCompare d s with
          | none => rw [hc] at hcs; cases hcs
          | some o =>
            cases o with
            | lt => exact ⟨false, by simp [record_pass, hdt, hc]⟩
            | eq => exact ⟨bb, by simp [record_pass, hdt, hc, hbb]⟩
            | gt => exact ⟨bb, by simp [record_pass, hdt, hc, hbb]⟩
    obtain ⟨bb, hbb⟩ := hpass
    refine ⟨if bb then r :: rest else rest, ?_⟩
    rw [filter_records, hbb, hrest]

theorem toList_mk (cs : List Char) : (String.mk cs).toList = cs := rfl

/-- Decidable equality of `Except` results, so that concrete filter runs
can be checked by evaluation. -/
instance exceptDecEq {ε α : Type} [DecidableEq ε] [DecidableEq α] :
    DecidableEq (Except ε α) := fun a b =>
  match a, b with
  | .error x, .error y =>
    if h : x = y then isTrue (by rw [h]) else isFalse (fun hh => h (Except.error.inj hh))
  | .ok x, .ok y =>
    if h : x = y then isTrue (by rw [h]) else isFalse (fun hh => h (Except.ok.inj hh))
  | .error _, .ok _ => isFalse (fun hh => Except.noConfusion hh)
  | .ok _, .error _ => isFalse (fun hh => Except.noConfusion hh)

/-! ## Claim theorems -/

/-- C1: for every store and every pair of optional bounds, a record
appears in the range filter's output iff its parsed timestamp is present,
AND (start absent OR timestamp >= start), AND (end absent OR
timestamp <= end); both bounds inclusive, and records with an absent
parsed timestamp never appear, even with both bounds absent.  (Stated for
every completed filter run; comparison faults are the subject of C3.) -/
theorem claim_C1_filter_range_membership
    (records : List ConsumptionRecord) (sd ed : Option PyDateTime)
    (out : List ConsumptionRecord)
    (h : filter_records records sd ed = .ok out) (r : ConsumptionRecord) :
    r ∈ out ↔
      r ∈ records ∧ ∃ d, r.datetime_obj = some d
        ∧ (∀ s, sd = some s → dtGe d s = true)
        ∧ (∀ e, ed = some e → dtLe d e = true) := by
  rw [filter_records_mem_iff h, record_pass_true_iff]

/-- C5: the store built by load lists records in source row order (its
(raw timestamp, usage) projection is a subsequence of the rows'
projection), and every completed filter run returns a subsequence of the
store: loading and filtering never reorder, duplicates are preserved. -/
theorem claim_C5_order_preservation
    (rows : List CsvRow) (records : List ConsumptionRecord)
    (sd ed : Option PyDateTime) (out : List ConsumptionRecord) :
    (((load_csv_rows rows).map fun r => (r.datetime_str, some r.energy_usage)).Sublist
        (rows.map fun row => (row.DateTime, pyFloat row.EnergyUsage)))
    ∧ (filter_records records sd ed = .ok out → out.Sublist records) :=
  ⟨load_csv_rows_sublist rows, fun h => filter_records_sublist h⟩

/-- C6: a row whose usage field fails float conversion is skipped and
loading continues with the next row; a row whose usage converts but whose
datetime fails parsing is kept in the store with an absent parsed
timestamp, never dropped. -/
theorem claim_C6_row_error_handling (row : CsvRow) (rest : List CsvRow) :
    (pyFloat row.EnergyUsage = none → load_csv_rows (row :: rest) = load_csv_rows rest)
    ∧ (∀ v, pyFloat row.EnergyUsage = some v →
        load_csv_rows (row :: rest) = mkConsumptionRecord row.DateTime v :: load_csv_rows rest
        ∧ (py_datetime_rule row.DateTime = none →
            (mkConsumptionRecord row.DateTime v).datetime_obj = none)) := by
  constructor
  · intro h
    simp [load_csv_rows, h]
  · intro v hv
    constructor
    · simp [load_csv_rows, hv]
    · intro hp
      simp [mkConsumptionRecord, hp]

/-- C8: every record of a successful gRPC response carries as its
`datetime` field the raw string of some source row, exactly as supplied
(the loader and the response builder copy `datetime_str` verbatim). -/
theorem claim_C8_output_timestamp_fidelity
    (rows : List CsvRow) (request : ConsumptionRequest)
    (gs : List GrpcConsumptionRecord)
    (h : GetConsumptionData (load_csv_rows rows) request = .ok gs) :
    ∀ g ∈ gs, ∃ row ∈ rows, g.datetime = row.DateTime := by
  intro g hg
  obtain ⟨out, hout, rfl⟩ := GetConsumptionData_ok h
  obtain ⟨r, hr, rfl⟩ := List.mem_map.mp hg
  have hrs : r ∈ load_csv_rows rows := (filter_records_sublist hout).subset hr
  obtain ⟨row, hrow, v, hv, rfl⟩ := load_csv_rows_mem hrs
  exact ⟨row, hrow, rfl⟩

/-- C9: when the source cannot be opened, the fault is re-raised
unchanged: loading produces no store and servicer initialization fails
with the same fault (nothing is retried or absorbed). -/
theorem claim_C9_load_failure_propagates (e : String) :
    consumptionServicerInit (Except.error e) = Except.error e
    ∧ load_csv_data (Except.error e) = Except.error e :=
  ⟨rfl, rfl⟩

/-- C10: every record of a successful response of the public HTTP
endpoint carries the required `temperature` field, and since the gRPC
server sets only `datetime` and `energy_usage`, it always equals the
proto3 default `0.0` (here `PyFloat.finite 0 0`). -/
theorem claim_C10_temperature_default
    (records : List ConsumptionRecord) (s e : Option String)
    (resp : HttpConsumptionResponse)
    (h : get_consumption records s e = .ok resp) :
    ∀ r ∈ resp.records, r.temperature = PyFloat.finite 0 0 := by
  intro r hr
  obtain ⟨gs, hgs, hrecords⟩ := get_consumption_ok h
  rw [hrecords] at hr
  obtain ⟨g, hgmem, rfl⟩ := List.mem_map.mp hr
  obtain ⟨out, hout, rfl⟩ := GetConsumptionData_ok hgs
  obtain ⟨cr, hcr, rfl⟩ := List.mem_map.mp hgmem
  rfl

def HttpOutcome.is400 : HttpOutcome → Bool
  | .httpError n _ => n == 400
  | _ => false

/-- C2: a query whose start or end bound string is present, non-empty and
unparsable fails with the client error naming that bound; an absent or
empty bound string is treated, per bound and whatever the other bound
is, as no bound (the query equals the one with that bound absent), not
an error. -/
theorem claim_C2_invalid_bound_rejected
    (records : List ConsumptionRecord) (startStr endStr : Option String) :
    (∀ s, startStr = some s → s ≠ "" → validate_datetime s = false →
        get_consumption records startStr endStr =
          .httpError 400 "Invalid start_datetime format. Use ISO 8601 format.")
    ∧ ((optTruthy startStr = true → validate_datetime (startStr.getD "") = true) →
        ∀ s, endStr = some s → s ≠ "" → validate_datetime s = false →
        get_consumption records startStr endStr =
          .httpError 400 "Invalid end_datetime format. Use ISO 8601 format.")
    ∧ ((startStr = none ∨ startStr = some "") →
        get_consumption records startStr endStr = get_consumption records none endStr)
    ∧ ((endStr = none ∨ endStr = some "") →
        get_consumption records startStr endStr = get_consumption records startStr none) := by
  refine ⟨?_, ?_, ?_, ?_⟩
  · rintro s rfl hne hval
    have ht : optTruthy (some s) = true := by simp [optTruthy, hne]
    simp [get_consumption, ht, hval]
  · intro hgood s hes hne hval
    subst hes
    have ht : optTruthy (some s) = true := by simp [optTruthy, hne]
    cases hts : optTruthy startStr with
    | false => simp [get_consumption, hts, ht, hval]
    | true =>
      have hv := hgood hts
      simp [get_consumption, hts, hv, ht, hval]
  · rintro (rfl | rfl) <;> rfl
  · rintro (rfl | rfl) <;> rfl

/-- C3 counterexample: the Internal branch of `GetConsumptionData` is
taken on a store whose record has an offset-aware parsed timestamp and a
query with an offset-naive start bound — the `<` comparison raises
`TypeError`, caught by the catch-all handler. -/
theorem claim_C3_counterexample :
    (GetConsumptionData
        [mkConsumptionRecord "2024-01-01T00:00:00Z" (PyFloat.finite 10 (-1))]
        ⟨"2024-01-02T00:00:00", ""⟩).isInternal = true := by
  decide

/-- C3 amended: query evaluation is a pure function of the store and the
two bounds (it is a function in this embedding), and the Internal branch
is never taken provided all parsed record timestamps and all parsed
bounds agree in timezone-awareness; a naive/aware mix can reach it. -/
theorem claim_C3_no_internal_when_uniform_awareness
    (records : List ConsumptionRecord) (request : ConsumptionRequest) (b : Bool)
    (hrec : ∀ r ∈ records, r.datetime_obj.all (fun d => dtAware d == b) = true)
    (hsd : (parse_datetime request.start_datetime).all (fun d => dtAware d == b) = true)
    (hed : (parse_datetime request.end_datetime).all (fun d => dtAware d == b) = true) :
    (GetConsumptionData records request).isInternal = false := by
  obtain ⟨out, hout⟩ := filter_records_total hrec hsd hed
  cases hs : parse_datetime request.start_datetime with
  | none =>
    rw [hs] at hout
    simp [GetConsumptionData, hs, filter_respond, hout, GrpcOutcome.isInternal]
  | some s =>
    rw [hs] at hout
    cases he : parse_datetime request.end_datetime with
    | none =>
      rw [he] at hout
      simp [GetConsumptionData, hs, he, filter_respond, hout, GrpcOutcome.isInternal]
    | some e =>
      rw [he] at hout
      have hsa : dtAware s = b := by rw [hs] at hsd; simpa using hsd
      have hea : dtAware e = b := by rw [he] at hed; simpa using hed
      have hcs := pyCompare_isSome_of_aware_eq (hsa.trans hea.symm)
      cases hc : pyCompare s e with
      | none => rw [hc] at hcs; cases hcs
      | some o =>
        cases o <;>
          simp [GetConsumptionData, hs, he, hc, filter_respond, hout,
            GrpcOutcome.isInternal]

/-- C4: when both bound strings parse and the parsed start is strictly
greater than the parsed end, the query yields the invalid-argument error
at both servers regardless of the store contents; start equal to end is
not an error. -/
theorem claim_C4_reversed_range_rejected
    (records : List ConsumptionRecord) (s e : String) (ps pe : PyDateTime)
    (hs : parse_datetime s = some ps) (he : parse_datetime e = some pe) :
    (pyCompare ps pe = some Ordering.gt →
      GetConsumptionData records ⟨s, e⟩ =
          .invalidArgument "start_datetime must be before end_datetime"
      ∧ get_consumption records (some s) (some e) =
          .httpError 400 "start_datetime must be before end_datetime")
    ∧ (pyCompare ps pe = some Ordering.eq →
      (GetConsumptionData records ⟨s, e⟩).isInvalidArgument = false
      ∧ (get_consumption records (some s) (some e)).is400 = false) := by
  have hsne : s ≠ "" := by
    intro hh
    rw [hh] at hs
    simp [parse_datetime] at hs
  have hene : e ≠ "" := by
    intro hh
    rw [hh] at he
    simp [parse_datetime] at he
  have hps : py_datetime_rule s = some ps := by
    unfold parse_datetime at hs
    rwa [if_neg hsne] at hs
  have hpe : py_datetime_rule e = some pe := by
    unfold parse_datetime at he
    rwa [if_neg hene] at he
  have hvs : validate_datetime s = true := by simp [validate_datetime, hps]
  have hve : validate_datetime e = true := by simp [validate_datetime, hpe]
  have hts : optTruthy (some s) = true := by simp [optTruthy, hsne]
  have hte : optTruthy (some e) = true := by simp [optTruthy, hene]
  constructor
  · intro hgt
    constructor
    · simp [GetConsumptionData, hs, he, hgt]
    · simp [get_consumption, hts, hte, hvs, hve, hps, hpe, hgt]
  · intro heq
    constructor
    · simp only [GetConsumptionData, hs, he, heq]
      unfold filter_respond
      cases hf : filter_records records (some ps) (some pe) with
      | error u => simp [hf, GrpcOutcome.isInvalidArgument]
      | ok out => simp [hf, GrpcOutcome.isInvalidArgument]
    · cases hg : GetConsumptionData records ⟨s, e⟩ with
      | ok gs =>
        simp [get_consumption, get_consumption_fetch, get_consumption_data,
          hts, hte, hvs, hve, hps, hpe, heq, hg, HttpOutcome.is400]
      | invalidArgument d =>
        simp [get_consumption, get_consumption_fetch, get_consumption_data,
          hts, hte, hvs, hve, hps, hpe, heq, hg, HttpOutcome.is400]
      | internal d =>
        simp [get_consumption, get_consumption_fetch, get_consumption_data,
          hts, hte, hvs, hve, hps, hpe, heq, hg, HttpOutcome.is400]

theorem replaceZChars_append (xs ys : List Char) :
    replaceZChars (xs ++ ys) = replaceZChars xs ++ replaceZChars ys := by
  induction xs with
  | nil => rfl
  | cons c rest ih => simp [replaceZChars, ih]

theorem replaceZChars_of_not_mem {cs : List Char} (h : 'Z' ∉ cs) :
    replaceZChars cs = cs := by
  induction cs with
  | nil => rfl
  | cons c rest ih =>
    simp only [List.mem_cons, not_or] at h
    have hc : ¬(c = 'Z') := fun hc => h.1 hc.symm
    simp [replaceZChars, hc, ih h.2]

/-- C7 counterexample: `"2024-01-01Z:30"` does not end with `Z` and is
not ISO-8601 (the spec rule rejects it), yet the code's parse accepts it:
the interior `Z` is replaced by `+00:00`, giving `"2024-01-01+00:00:30"`,
whose `+` is swallowed as the arbitrary date-time separator. -/
theorem claim_C7_counterexample :
    endsWithZ "2024-01-01Z:30" = false
    ∧ spec_datetime_rule "2024-01-01Z:30" = none
    ∧ py_datetime_rule "2024-01-01Z:30" = some ⟨2024, 1, 1, 0, 0, 30, 0, none⟩ := by
  refine ⟨by decide, by decide, by decide⟩

/-- C7 amended: for every string whose every `Z` (if any) is trailing,
the code's parse agrees exactly with the spec's rule — trailing `Z`
becomes UTC offset `+00:00` before parsing and any other non-ISO-8601
string fails.  (Because the code replaces every occurrence of `Z`, some
strings with a non-trailing `Z` parse as well, as the counterexample
shows.) -/
theorem claim_C7_datetime_rule_agreement (s : String) (hz : zOnlyTrailing s = true) :
    py_datetime_rule s = spec_datetime_rule s := by
  obtain ⟨cs⟩ := s
  revert hz
  induction cs using List.reverseRecOn with
  | nil => intro _; rfl
  | append_singleton init a ih =>
    intro hz
    have hzmem : 'Z' ∉ init := by
      have hcontains : init.contains 'Z' = false := by
        simpa [zOnlyTrailing, toList_mk, List.dropLast_concat] using hz
      simpa using hcontains
    simp only [py_datetime_rule, spec_datetime_rule, pyFromIso, replaceZ, endsWithZ,
      toList_mk, List.getLast?_concat, List.dropLast_concat]
    by_cases ha : a = 'Z'
    · subst ha
      rw [replaceZChars_append, replaceZChars_of_not_mem hzmem]
      simp [replaceZChars]
    · rw [replaceZChars_append, replaceZChars_of_not_mem hzmem]
      simp [replaceZChars, ha]

/-! ## Concrete witnesses

Demo data following the example of the spec (section 8), plus a row whose
usage field fails float conversion. -/

def demoRows : List CsvRow :=
  [⟨"2024-01-01T00:00:00Z", "10.5"⟩,
   ⟨"2024-01-01T12:00:00Z", "20.0"⟩,
   ⟨"bad-date", "5.0"⟩,
   ⟨"2024-01-01T13:00:00Z", "oops"⟩]

def demoStore : List ConsumptionRecord := load_csv_rows demoRows

def demoBoundS : PyDateTime := ⟨2024, 1, 1, 0, 0, 0, 0, some 0⟩

def demoBoundE : PyDateTime := ⟨2024, 1, 1, 12, 0, 0, 0, some 0⟩

def demoOut : List ConsumptionRecord :=
  [mkConsumptionRecord "2024-01-01T00:00:00Z" (PyFloat.finite 105 (-1)),
   mkConsumptionRecord "2024-01-01T12:00:00Z" (PyFloat.finite 200 (-1))]

theorem claim_C1_witness :
    mkConsumptionRecord "bad-date" (PyFloat.finite 50 (-1)) ∈ demoOut ↔
      (mkConsumptionRecord "bad-date" (PyFloat.finite 50 (-1)) ∈ demoStore
        ∧ ∃ d, (mkConsumptionRecord "bad-date" (PyFloat.finite 50 (-1))).datetime_obj = some d
          ∧ (∀ s, (some demoBoundS : Option PyDateTime) = some s → dtGe d s = true)
          ∧ (∀ e, (some demoBoundE : Option PyDateTime) = some e → dtLe d e = true)) :=
  claim_C1_filter_range_membership demoStore (some demoBoundS) (some demoBoundE)
    demoOut (by decide) _

theorem claim_C2_witness :
    get_consumption [] (some "not-a-date") none =
        .httpError 400 "Invalid start_datetime format. Use ISO 8601 format."
    ∧ get_consumption [] none (some "not-a-date") =
        .httpError 400 "Invalid end_datetime format. Use ISO 8601 format."
    ∧ get_consumption [] (some "") (some "2024-01-01T00:00:00") =
        get_consumption [] none (some "2024-01-01T00:00:00")
    ∧ get_consumption [] (some "2024-01-01T00:00:00") (some "") =
        get_consumption [] (some "2024-01-01T00:00:00") none :=
  ⟨(claim_C2_invalid_bound_rejected [] (some "not-a-date") none).1
      "not-a-date" rfl (by decide) (by decide),
   (claim_C2_invalid_bound_rejected [] none (some "not-a-date")).2.1
      (by decide) "not-a-date" rfl (by decide) (by decide),
   (claim_C2_invalid_bound_rejected [] (some "") (some "2024-01-01T00:00:00")).2.2.1
      (Or.inr rfl),
   (claim_C2_invalid_bound_rejected [] (some "2024-01-01T00:00:00") (some "")).2.2.2
      (Or.inr rfl)⟩

theorem claim_C3_witness :
    (GetConsumptionData [mkConsumptionRecord "2024-01-01T00:00:00Z" (PyFloat.finite 10 (-1))]
        ⟨"2024-01-01T00:00:00+00:00", ""⟩).isInternal = false :=
  claim_C3_no_internal_when_uniform_awareness _ _ true (by decide) (by decide) (by decide)

theorem claim_C4_witness :
    (GetConsumptionData [] ⟨"2024-01-02T00:00:00", "2024-01-01T00:00:00"⟩ =
        .invalidArgument "start_datetime must be before end_datetime")
    ∧ (get_consumption [] (some "2024-01-02T00:00:00") (some "2024-01-01T00:00:00") =
        .httpError 400 "start_datetime must be before end_datetime")
    ∧ (GetConsumptionData [] ⟨"2024-01-01T00:00:00", "2024-01-01T00:00:00"⟩).isInvalidArgument
        = false
    ∧ (get_consumption [] (some "2024-01-01T00:00:00")
        (some "2024-01-01T00:00:00")).is400 = false := by
  have h1 := (claim_C4_reversed_range_rejected [] "2024-01-02T00:00:00" "2024-01-01T00:00:00"
      ⟨2024, 1, 2, 0, 0, 0, 0, none⟩ ⟨2024, 1, 1, 0, 0, 0, 0, none⟩
      (by decide) (by decide)).1 (by decide)
  have h2 := (claim_C4_reversed_range_rejected [] "2024-01-01T00:00:00" "2024-01-01T00:00:00"
      ⟨2024, 1, 1, 0, 0, 0, 0, none⟩ ⟨2024, 1, 1, 0, 0, 0, 0, none⟩
      (by decide) (by decide)).2 (by decide)
  exact ⟨h1.1, h1.2, h2.1, h2.2⟩

theorem claim_C5_witness :
    (((load_csv_rows demoRows).map fun r => (r.datetime_str, some r.energy_usage)).Sublist
        (demoRows.map fun row => (row.DateTime, pyFloat row.EnergyUsage)))
    ∧ demoOut.Sublist demoStore :=
  ⟨(claim_C5_order_preservation demoRows demoStore none none demoOut).1,
   (claim_C5_order_preservation demoRows demoStore none none demoOut).2 (by decide)⟩

theorem claim_C6_witness :
    load_csv_rows [⟨"2024-01-01T00:00:00", "abc"⟩, ⟨"bad-date", "5.0"⟩] =
        load_csv_rows [⟨"bad-date", "5.0"⟩]
    ∧ load_csv_rows [⟨"bad-date", "5.0"⟩] =
        [mkConsumptionRecord "bad-date" (PyFloat.finite 50 (-1))]
    ∧ (mkConsumptionRecord "bad-date" (PyFloat.finite 50 (-1))).datetime_obj = none := by
  have h1 := (claim_C6_row_error_handling ⟨"2024-01-01T00:00:00", "abc"⟩
      [⟨"bad-date", "5.0"⟩]).1 (by decide)
  have h2 := (claim_C6_row_error_handling ⟨"bad-date", "5.0"⟩ []).2
      (PyFloat.finite 50 (-1)) (by decide)
  exact ⟨h1, h2.1, h2.2 (by decide)⟩

theorem claim_C7_witness :
    py_datetime_rule "2024-01-01T00:00:00Z" = spec_datetime_rule "2024-01-01T00:00:00Z" :=
  claim_C7_datetime_rule_agreement _ (by decide)

theorem claim_C8_witness :
    ∃ row ∈ demoRows,
      ({ datetime := "2024-01-01T00:00:00Z", energy_usage := PyFloat.finite 105 (-1),
         temperature := PyFloat.finite 0 0 } : GrpcConsumptionRecord).datetime = row.DateTime :=
  claim_C8_output_timestamp_fidelity demoRows ⟨"", ""⟩
    [⟨"2024-01-01T00:00:00Z", PyFloat.finite 105 (-1), PyFloat.finite 0 0⟩,
     ⟨"2024-01-01T12:00:00Z", PyFloat.finite 200 (-1), PyFloat.finite 0 0⟩]
    (by decide) _ (by decide)

theorem claim_C9_witness :
    consumptionServicerInit (Except.error "FileNotFoundError: meterusage.csv") =
      Except.error "FileNotFoundError: meterusage.csv" :=
  (claim_C9_load_failure_propagates "FileNotFoundError: meterusage.csv").1

theorem claim_C10_witness :
    ({ datetime := "2024-01-01T00:00:00Z", energy_usage := PyFloat.finite 105 (-1),
       temperature := PyFloat.finite 0 0 } : HttpConsumptionRecord).temperature =
      PyFloat.finite 0 0 :=
  claim_C10_temperature_default demoStore none none
    ⟨[⟨"2024-01-01T00:00:00Z", PyFloat.finite 105 (-1), PyFloat.finite 0 0⟩,
      ⟨"2024-01-01T12:00:00Z", PyFloat.finite 200 (-1), PyFloat.finite 0 0⟩], 2⟩
    (by decide) _ (by decide)
